import Mathlib

/-!
Verification of `scripts/guidellm_patched.py`.

The script monkey-patches `OpenAIHTTPBackend.process_startup` with a variant
that reads `OPENAI_API_KEY` from the environment, builds an `Authorization`
header when the key is non-empty, constructs an `httpx.AsyncClient` with
fixed connection limits and configuration copied from the backend object,
and finally delegates to the external `guidellm` CLI entry point via
`sys.exit(cli())`.

We embed the script shallowly: the backend object becomes a structure with
the fields the script touches, the environment becomes an `Option String`
(the value of `OPENAI_API_KEY`, `none` when unset), the patched coroutine
becomes a pure function returning the raised-or-returned outcome together
with the post state, and statement granularity is recovered by an explicit
trace of intermediate backend states.  The timeout field is kept abstract
(type parameter `τ`) since the script only copies it verbatim.
-/

/-- Connection-limit policy, embedding `httpx.Limits(...)` as constructed by
the script: optional bounds and a rational keep-alive expiry. -/
structure Limits where
  max_connections : Option Nat
  max_keepalive_connections : Option Nat
  keepalive_expiry : ℚ
deriving DecidableEq, Repr

/-- The `httpx.AsyncClient` object as observed through the constructor call
in the script: the four copied configuration values, the header map (an
association list in insertion order, looked up by key), and the limits. -/
structure AsyncClient (τ : Type) where
  http2 : Bool
  timeout : τ
  follow_redirects : Bool
  verify : Bool
  headers : List (String × String)
  limits : Limits
deriving DecidableEq, Repr

/-- The `OpenAIHTTPBackend` instance as seen by the patched method: the four
configuration fields it reads, the `_in_process` flag and the
`_async_client` slot it writes. -/
structure Backend (τ : Type) where
  http2 : Bool
  timeout : τ
  follow_redirects : Bool
  verify : Bool
  _in_process : Bool
  _async_client : Option (AsyncClient τ)
deriving DecidableEq, Repr

/-- Embedding of `os.environ.get("OPENAI_API_KEY", "")`: the environment
value with the empty string as the default for an unset variable. -/
def getApiKey (env : Option String) : String :=
  env.getD ""

/-- The header construction in the patched method:
`headers = {}` followed by
`if api_key: headers["Authorization"] = f"Bearer {api_key}"`.
A non-empty Python string is truthy. -/
def buildHeaders (api_key : String) : List (String × String) :=
  if api_key ≠ "" then [("Authorization", "Bearer " ++ api_key)] else []

/-- The `httpx.AsyncClient(...)` construction performed by the patched
method: configuration copied verbatim from `self`, headers built from the
environment, and the fixed limits
`max_connections=None, max_keepalive_connections=None, keepalive_expiry=5.0`. -/
def mkClient {τ : Type} (env : Option String) (self : Backend τ) : AsyncClient τ :=
  { http2 := self.http2
    timeout := self.timeout
    follow_redirects := self.follow_redirects
    verify := self.verify
    headers := buildHeaders (getApiKey env)
    limits := { max_connections := none
                max_keepalive_connections := none
                keepalive_expiry := 5 } }

/-- The patched `process_startup` coroutine.  It raises
`RuntimeError("Backend already started up for process.")` when the backend
is already in process (leaving the state untouched), otherwise stores the
newly constructed client in `_async_client` and then sets `_in_process`.
The result is the raised-or-returned outcome paired with the post state. -/
def patched_startup {τ : Type} (env : Option String) (self : Backend τ) :
    Except String Unit × Backend τ :=
  if self._in_process then
    (Except.error "Backend already started up for process.", self)
  else
    (Except.ok (),
      { self with _async_client := some (mkClient env self), _in_process := true })

/-- The sequence of backend states visible at each statement boundary of the
patched method: the initial state, then (on the non-error path) the state
after the `self._async_client = httpx.AsyncClient(...)` assignment, then the
state after `self._in_process = True`. -/
def startup_trace {τ : Type} (env : Option String) (self : Backend τ) :
    List (Backend τ) :=
  if self._in_process then
    [self]
  else
    [self,
     { self with _async_client := some (mkClient env self) },
     { self with _async_client := some (mkClient env self), _in_process := true }]

/-- The class object of `OpenAIHTTPBackend`, reduced to the one attribute the
script rebinds: its class-level `process_startup` method. -/
structure BackendClass (τ : Type) where
  process_startup : Option String → Backend τ → Except String Unit × Backend τ

/-- The top-level patch installation
`OpenAIHTTPBackend.process_startup = patched_startup`. -/
def install_patch {τ : Type} (C : BackendClass τ) : BackendClass τ :=
  { C with process_startup := patched_startup }

/-- Python attribute lookup: invoking `b.process_startup()` on an instance of
class `C` runs the class-level method on that instance. -/
def invoke_startup {τ : Type} (C : BackendClass τ) (env : Option String)
    (b : Backend τ) : Except String Unit × Backend τ :=
  C.process_startup env b

/-- Embedding of `sys.exit(code)`: the process terminates with exactly this
status. -/
def sys_exit (code : Int) : Int :=
  code

/-- The delegation line `sys.exit(cli())`, as a function of the outcome of
the external entry point `cli` (which either returns an exit value or raises
an exception of some type `ε`): a returned value is passed to `sys.exit`
unchanged, and a raised exception propagates uncaught. -/
def script_main {ε : Type} (cliOutcome : Except ε Int) : Except ε Int :=
  match cliOutcome with
  | Except.ok v => Except.ok (sys_exit v)
  | Except.error e => Except.error e

/-- A concrete backend used to instantiate witnesses, with the configuration
of the example in the spec (`http2=true, timeout=30, follow_redirects=false,
verify=true`) and not yet started. -/
def testBackend : Backend Int :=
  { http2 := true
    timeout := 30
    follow_redirects := false
    verify := true
    _in_process := false
    _async_client := none }

/-- A concrete already-started backend used to instantiate witnesses. -/
def startedBackend : Backend Int :=
  { testBackend with
    _in_process := true
    _async_client := some (mkClient none testBackend) }

/-- C1: if `OPENAI_API_KEY` is set to a non-empty string `v`, the header map
passed to the client constructor by the patched startup maps `Authorization`
to `"Bearer " ++ v`; if the variable is unset or set to the empty string,
the header map contains no `Authorization` key at all. -/
theorem claim_C1 {τ : Type} (b : Backend τ) (h : b._in_process = false) :
    (∀ v : String, v ≠ "" →
      ∃ c, ((patched_startup (some v) b).2)._async_client = some c ∧
        c.headers.lookup "Authorization" = some ("Bearer " ++ v)) ∧
    (∀ env : Option String, env = none ∨ env = some "" →
      ∃ c, ((patched_startup env b).2)._async_client = some c ∧
        c.headers.lookup "Authorization" = none) := by
  constructor
  · intro v hv
    refine ⟨mkClient (some v) b, ?_, ?_⟩
    · simp [patched_startup, h]
    · simp [mkClient, buildHeaders, getApiKey, hv]
  · intro env henv
    refine ⟨mkClient env b, ?_, ?_⟩
    · simp [patched_startup, h]
    · rcases henv with rfl | rfl <;> simp [mkClient, buildHeaders, getApiKey]

/-- Witness for C1 at a concrete backend: key `"k"` yields the bearer
header, the unset variable yields no `Authorization` key. -/
theorem claim_C1_witness :
    (∃ c, ((patched_startup (some "k") testBackend).2)._async_client = some c ∧
      c.headers.lookup "Authorization" = some ("Bearer " ++ "k")) ∧
    (∃ c, ((patched_startup none testBackend).2)._async_client = some c ∧
      c.headers.lookup "Authorization" = none) :=
  ⟨(claim_C1 testBackend rfl).1 "k" (by decide),
   (claim_C1 testBackend rfl).2 none (Or.inl rfl)⟩

/-- C2: on a backend whose `_in_process` flag is true, the patched startup
raises the `RuntimeError` and leaves the state fully unchanged: no client is
constructed, `_async_client` is not replaced, `_in_process` is unchanged. -/
theorem claim_C2 {τ : Type} (env : Option String) (b : Backend τ)
    (h : b._in_process = true) :
    patched_startup env b =
      (Except.error "Backend already started up for process.", b) := by
  simp [patched_startup, h]

/-- Witness for C2 on a concrete already-started backend. -/
theorem claim_C2_witness :
    patched_startup none startedBackend =
      (Except.error "Backend already started up for process.", startedBackend) :=
  claim_C2 none startedBackend rfl

/-- C3: on a backend whose `_in_process` flag is false, the patched startup
succeeds, sets `_in_process` to true, stores the newly constructed client in
`_async_client`, and that client carries the fixed limits
(`max_connections=None`, `max_keepalive_connections=None`,
`keepalive_expiry=5.0`). -/
theorem claim_C3 {τ : Type} (env : Option String) (b : Backend τ)
    (h : b._in_process = false) :
    (patched_startup env b).1 = Except.ok () ∧
    ((patched_startup env b).2)._in_process = true ∧
    ((patched_startup env b).2)._async_client = some (mkClient env b) ∧
    (mkClient env b).limits.max_connections = none ∧
    (mkClient env b).limits.max_keepalive_connections = none ∧
    (mkClient env b).limits.keepalive_expiry = 5 := by
  simp [patched_startup, h, mkClient]

/-- Witness for C3 on a concrete not-yet-started backend. -/
theorem claim_C3_witness :
    (patched_startup none testBackend).1 = Except.ok () ∧
    ((patched_startup none testBackend).2)._in_process = true ∧
    ((patched_startup none testBackend).2)._async_client =
      some (mkClient none testBackend) ∧
    (mkClient none testBackend).limits.max_connections = none ∧
    (mkClient none testBackend).limits.max_keepalive_connections = none ∧
    (mkClient none testBackend).limits.keepalive_expiry = 5 :=
  claim_C3 none testBackend rfl

/-- C4: on a successful run of the patched startup, the four configuration
values carried by the constructed client (`http2`, `timeout`,
`follow_redirects`, `verify`) equal the corresponding fields the backend
held before the call. -/
theorem claim_C4 {τ : Type} (env : Option String) (b : Backend τ)
    (h : b._in_process = false) :
    ∃ c, ((patched_startup env b).2)._async_client = some c ∧
      c.http2 = b.http2 ∧ c.timeout = b.timeout ∧
      c.follow_redirects = b.follow_redirects ∧ c.verify = b.verify := by
  refine ⟨mkClient env b, ?_, rfl, rfl, rfl, rfl⟩
  simp [patched_startup, h]

/-- Witness for C4 on a concrete backend. -/
theorem claim_C4_witness :
    ∃ c, ((patched_startup none testBackend).2)._async_client = some c ∧
      c.http2 = testBackend.http2 ∧ c.timeout = testBackend.timeout ∧
      c.follow_redirects = testBackend.follow_redirects ∧
      c.verify = testBackend.verify :=
  claim_C4 none testBackend rfl

/-- C5: whenever the external CLI entry point returns a value `v`, the
process terminates with exactly that value as its exit status, unchanged
and uninterpreted by the script. -/
theorem claim_C5 {ε : Type} (v : Int) :
    script_main (ε := ε) (Except.ok v) = Except.ok v :=
  rfl

/-- C6: at no statement boundary of a run of the patched startup does the
`_in_process` flag read true while the constructed client has not yet been
stored in `_async_client`: every intermediate state with the flag set
already holds the fully built client. -/
theorem claim_C6 {τ : Type} (env : Option String) (b : Backend τ)
    (h : b._in_process = false) :
    ∀ s ∈ startup_trace env b, s._in_process = true →
      s._async_client = some (mkClient env b) := by
  intro s hs hflag
  simp only [startup_trace, h, Bool.false_eq_true, if_false, List.mem_cons,
    List.not_mem_nil, or_false] at hs
  rcases hs with rfl | rfl | rfl
  · exact absurd hflag (by simp [h])
  · exact absurd hflag (by simp [h])
  · rfl

/-- Witness for C6: the final trace state of a concrete run has the flag set
and indeed holds the built client. -/
theorem claim_C6_witness :
    ({ testBackend with
        _async_client := some (mkClient none testBackend),
        _in_process := true } : Backend Int)._async_client =
      some (mkClient none testBackend) :=
  claim_C6 none testBackend rfl _
    (by simp [startup_trace, testBackend]) rfl

/-- C7: the delegation raises exactly the exception the external entry point
raised, and raises one only in that case: it catches, wraps, and translates
nothing. -/
theorem claim_C7 {ε : Type} (o : Except ε Int) (e : ε) :
    script_main o = Except.error e ↔ o = Except.error e := by
  cases o <;> simp [script_main]

/-- C8: after the top-level patch installation, the class-level startup
method equals the patched routine, so invoking startup on any instance of
the class runs the patched logic. -/
theorem claim_C8 {τ : Type} (C : BackendClass τ) :
    (install_patch C).process_startup = patched_startup ∧
    ∀ (env : Option String) (b : Backend τ),
      invoke_startup (install_patch C) env b = patched_startup env b :=
  ⟨rfl, fun _ _ => rfl⟩

/-- C9: a successful run of the patched startup modifies only
`_async_client` and `_in_process`: the configuration fields `http2`,
`timeout`, `follow_redirects` and `verify` read the same values after the
call as before it. -/
theorem claim_C9 {τ : Type} (env : Option String) (b : Backend τ)
    (h : b._in_process = false) :
    ((patched_startup env b).2).http2 = b.http2 ∧
    ((patched_startup env b).2).timeout = b.timeout ∧
    ((patched_startup env b).2).follow_redirects = b.follow_redirects ∧
    ((patched_startup env b).2).verify = b.verify := by
  simp [patched_startup, h]

/-- Witness for C9 on a concrete backend. -/
theorem claim_C9_witness :
    ((patched_startup none testBackend).2).http2 = testBackend.http2 ∧
    ((patched_startup none testBackend).2).timeout = testBackend.timeout ∧
    ((patched_startup none testBackend).2).follow_redirects =
      testBackend.follow_redirects ∧
    ((patched_startup none testBackend).2).verify = testBackend.verify :=
  claim_C9 none testBackend rfl

/-- C10: the patched startup is deterministic in its inputs: two backends
agreeing on the four configuration fields and on the `_in_process` flag,
run under the same `OPENAI_API_KEY` value, yield the same raised-or-returned
outcome, and on success their slots hold identical constructed clients. -/
theorem claim_C10 {τ : Type} (env : Option String) (b1 b2 : Backend τ)
    (h1 : b1.http2 = b2.http2) (h2 : b1.timeout = b2.timeout)
    (h3 : b1.follow_redirects = b2.follow_redirects)
    (h4 : b1.verify = b2.verify) (h5 : b1._in_process = b2._in_process) :
    (patched_startup env b1).1 = (patched_startup env b2).1 ∧
    ((patched_startup env b1).1 = Except.ok () →
      ((patched_startup env b1).2)._async_client =
        ((patched_startup env b2).2)._async_client) := by
  have hc : mkClient env b1 = mkClient env b2 := by
    simp [mkClient, h1, h2, h3, h4]
  by_cases hp : b1._in_process
  · simp [patched_startup, hp, h5 ▸ hp]
  · have hp2 : b2._in_process = false := by
      rw [← h5]; exact Bool.not_eq_true _ ▸ (by simpa using hp)
    simp [patched_startup, Bool.not_eq_true _ ▸ (by simpa using hp : ¬b1._in_process = true), hp2, hc]

/-- Witness for C10: two concrete backends differing only in their
`_async_client` slots produce the same outcome and identical clients. -/
theorem claim_C10_witness :
    (patched_startup (some "k") testBackend).1 =
      (patched_startup (some "k")
        { testBackend with _async_client := some (mkClient none testBackend) }).1 ∧
    ((patched_startup (some "k") testBackend).1 = Except.ok () →
      ((patched_startup (some "k") testBackend).2)._async_client =
        ((patched_startup (some "k")
          { testBackend with
            _async_client := some (mkClient none testBackend) }).2)._async_client) :=
  claim_C10 (some "k") testBackend
    { testBackend with _async_client := some (mkClient none testBackend) }
    rfl rfl rfl rfl rfl
